import Mathlib

set_option maxRecDepth 10000

/-!
Verification of the form-data serializer (serializeFormData / FormDataStream).

The definitions below are a shallow embedding of src/unnamed/part_000:
JavaScript values appearing as form-field values are modelled by the
inductive `Content`; the output side of the Readable stream is modelled by
`PState` (the list of chunks pushed so far plus the unflushed chunk
accumulator `kChunkBuffer`); the async production loop `readNext` is
modelled as structural recursion over the (finite) field iterator.
Byte buffers are represented by the string of their bytes; a chunk pushed
to the stream is a string, and the byte sequence of the body is the
concatenation of the pushed chunks.
-/

namespace FormData

/-- JS values that occur as field values, sources, or list items.
`str` is a JS string, `buf` a Buffer (its bytes given as a string),
`stream` a Readable (the chunks it will yield, plus its optional `path`
property), `record` a `{ source, filename, contentType }` object (plus an
optional `path` property, which the source also consults), `arr` an array,
`undef` the value `undefined`, and `other` stands for a truthy value that
has no `length`, no `source`, and is neither an array nor a Readable
(e.g. a number such as 42). -/
inductive Content where
  | str (s : String)
  | buf (b : String)
  | stream (chunks : List String) (path : Option String)
  | record (source : Option Content) (filename : Option String)
      (contentType : Option String) (path : Option String)
  | arr (items : List Content)
  | undef
  | other

/-- JS truthiness of a `Content` value: the empty string and `undefined`
are falsy, every other modelled value (including an empty Buffer, which is
an object) is truthy. -/
def truthy : Content → Bool
  | .str s => !s.data.isEmpty
  | .undef => false
  | _ => true

/-- Truthiness of `file.length`: nonzero for nonempty strings and Buffers
(and arrays, which also carry a `length` in JS); `undefined` (hence falsy)
for streams, plain objects, and `undefined`. -/
def lengthTruthy : Content → Bool
  | .str s => !s.data.isEmpty
  | .buf b => !b.data.isEmpty
  | .arr items => !items.isEmpty
  | _ => false

/-- `file instanceof Readable`. -/
def isReadable : Content → Bool
  | .stream _ _ => true
  | _ => false

/-- `Array.isArray(content)`. -/
def isArray : Content → Bool
  | .arr _ => true
  | _ => false

def getItems : Content → List Content
  | .arr items => items
  | _ => []

/-- The `source` property of a value (`undefined`, i.e. `none`, unless the
value is an object literal carrying one). -/
def getSource : Content → Option Content
  | .record s _ _ _ => s
  | _ => none

/-- The `filename` property of a value. -/
def getFilename : Content → Option String
  | .record _ f _ _ => f
  | _ => none

/-- The `contentType` property of a value. -/
def getContentType : Content → Option String
  | .record _ _ t _ => t
  | _ => none

/-- The `path` property of a value (present on fs read streams and on
records that choose to carry one). -/
def getPath : Content → Option String
  | .stream _ p => p
  | .record _ _ _ p => p
  | _ => none

/-- JS `a || b` for a possibly-absent string `a`: the empty string is
falsy, so it also falls through to `b`. -/
def jsOrStr : Option String → String → String
  | some s, d => if s.data.isEmpty then d else s
  | none, d => d

/-- Truthiness of `content.source`. -/
def sourceTruthy (c : Content) : Bool :=
  match getSource c with
  | some s => truthy s
  | none => false

/-- `const source = content.source || content;` -/
def resolveSource (c : Content) : Content :=
  match getSource c with
  | some s => if truthy s then s else c
  | none => c

/-- `file.source` as a value: `undefined` when absent. -/
def sourceOrUndef (c : Content) : Content :=
  match getSource c with
  | some s => s
  | none => .undef

mutual

/-- String a JS value coerces to (used by encodeURIComponent's implicit
`String()` coercion): strings and Buffers give their text, arrays join
their elements with commas, objects give their default object tag. -/
def jsToString : Content → String
  | .str s => s
  | .buf b => b
  | .arr items => String.intercalate "," (jsToStringList items)
  | .record _ _ _ _ => "[object Object]"
  | .stream _ _ => "[object Object]"
  | .undef => "undefined"
  | .other => "[object Object]"

/-- Pointwise `jsToString` over a list (mutual helper for array items). -/
def jsToStringList : List Content → List String
  | [] => []
  | c :: cs => jsToString c :: jsToStringList cs

end

/-- Hex digit (uppercase) of a value below 16. -/
def hexDigit (n : Nat) : Char :=
  if n < 10 then Char.ofNat (48 + n) else Char.ofNat (55 + n)

/-- Percent-encoding of one byte, e.g. 44 becomes "%2C". -/
def percentByte (b : Nat) : String :=
  String.mk [Char.ofNat 37, hexDigit (b / 16), hexDigit (b % 16)]

/-- UTF-8 bytes of a character (as numbers below 256). -/
def utf8Bytes (c : Char) : List Nat :=
  let n := c.toNat
  if n < 128 then [n]
  else if n < 2048 then [192 + n / 64, 128 + n % 64]
  else if n < 65536 then [224 + n / 4096, 128 + n / 64 % 64, 128 + n % 64]
  else [240 + n / 262144, 128 + n / 4096 % 64, 128 + n / 64 % 64, 128 + n % 64]

/-- Characters encodeURIComponent leaves as-is: ASCII letters, digits, and
the marks `-` `_` `.` `!` `~` `*` `'` `(` `)`. -/
def isUnreservedURIChar (c : Char) : Bool :=
  (65 ≤ c.toNat && c.toNat ≤ 90) || (97 ≤ c.toNat && c.toNat ≤ 122) ||
  (48 ≤ c.toNat && c.toNat ≤ 57) ||
  [45, 95, 46, 33, 126, 42, 39, 40, 41].contains c.toNat

/-- JavaScript's encodeURIComponent: unreserved characters pass through,
every other character is percent-encoded byte-wise in UTF-8. -/
def encodeURIComponent (s : String) : String :=
  String.join (s.data.map fun c =>
    if isUnreservedURIChar c then String.mk [c]
    else String.join ((utf8Bytes c).map percentByte))

/-- Decidable substring test (used to state what a produced body does and
does not contain). -/
def strContains (hay needle : String) : Bool :=
  (List.range (hay.data.length + 1)).any fun i =>
    needle.data.isPrefixOf (hay.data.drop i)

/-! The output side of the Readable stream: `pushed` is the list of chunks
handed to `this.push`, in order; `buffer` is the chunk accumulator
`kChunkBuffer` that `pushChunk` appends to and `flushChunks` empties. -/

structure PState where
  pushed : List String
  buffer : String
deriving DecidableEq

def initState : PState := ⟨[], ""⟩

/-- FormDataStream.pushChunk (line 172): append to the accumulator. -/
def pushChunk (st : PState) (c : String) : PState :=
  { st with buffer := st.buffer ++ c }

/-- FormDataStream.flushChunks (line 176): push the accumulator downstream
and empty it. -/
def flushChunks (st : PState) : PState :=
  { pushed := st.pushed ++ [st.buffer], buffer := "" }

/-- A direct `this.push(chunk)` that bypasses the accumulator. -/
def pushOut (st : PState) (c : String) : PState :=
  { st with pushed := st.pushed ++ [c] }

def lineBreak : String := "\r\n"

def defaultContentType : String := "text/plain"

def defaultStreamContentType : String := "application/octet-stream"

/-- The chunks a Readable will yield through readStream (lines 208-227):
the drain loop consumes them in order until exhaustion. -/
def streamSrcChunks : Content → List String
  | .stream chunks _ => chunks
  | _ => []

/-- The two ways field production can fail: `assert(file)` on a falsy
value (line 182), and the `Received non-Readable stream` error thrown for
a truthy value that has no length and is not a Readable (line 193). -/
inductive Err where
  | assertionFailed
  | nonReadable
deriving DecidableEq

/-- FormDataStream.streamFileField (lines 181-206). A string or Buffer
with truthy `length` is framed immediately; otherwise the value must be a
Readable, whose chunks are all pushed (backpressure does not change which
bytes are pushed; the suspension discipline is modelled separately by
`drainChunks`). Returns the new output state and the error, if any. -/
def streamFileField (st : PState) (file : Content) (contentType : Option String) :
    PState × Option Err :=
  if truthy file = false then (st, some .assertionFailed)
  else if lengthTruthy file then
    let st := pushChunk st ("Content-Type: " ++ jsOrStr contentType defaultContentType)
    let st := pushChunk st (lineBreak ++ lineBreak)
    let st := flushChunks st
    let st := pushOut st (jsToString file)
    (pushOut st lineBreak, none)
  else if isReadable file = false then (st, some .nonReadable)
  else
    let st := pushChunk st ("Content-Type: " ++ jsOrStr contentType defaultStreamContentType)
    let st := pushChunk st (lineBreak ++ lineBreak)
    let st := flushChunks st
    let st := (streamSrcChunks file).foldl pushOut st
    (pushOut st lineBreak, none)

/-- Modelled from the spec: the filename-fallback sites (lines 62 and 88)
call a helper `basename` whose defining file is not among the provided
sources (no import of it appears in src/unnamed/part_000); the spec says
filenames default to "the source's own path basename if available", so
this is the standard last-path-component function of `path.basename`,
computed here as the run of characters after the last slash. -/
def basenameAux : List Char → List Char → List Char
  | [], acc => acc
  | c :: rest, acc =>
    if c = Char.ofNat 47 then basenameAux rest [] else basenameAux rest (acc ++ [c])

/-- Last path component; see `basenameAux`. -/
def basename (p : String) : String :=
  String.mk (basenameAux p.data [])

/-- The filename chosen for a named-source field (line 62):
`content.filename || basename(content.path || "") || name`. -/
def fieldFilename (name : String) (content : Content) : String :=
  jsOrStr (getFilename content)
    (let bn := basename (jsOrStr (getPath content) "")
     if bn.data.isEmpty then name else bn)

/-- The per-item loop of the Array branch of readNext (lines 83-106).
`idx` is `filenameIndex`, which the source increments only when the
generated `name-index` fallback is actually used (the `++` sits inside
the right operand of `||`). Stops at the first failing item. -/
def streamListItems (name subBoundary : String) :
    PState → Nat → List Content → PState × Option Err
  | st, _, [] => (st, none)
  | st, idx, file :: rest =>
    let st := pushChunk st ("--" ++ subBoundary)
    let st := pushChunk st lineBreak
    if isReadable file then
      let bn := basename (jsOrStr (getPath file) "")
      let fname := if bn.data.isEmpty then name ++ "-" ++ toString idx else bn
      let idx := if bn.data.isEmpty then idx + 1 else idx
      let st := pushChunk st
        ("Content-Disposition: file; filename=\"" ++ encodeURIComponent fname ++ "\"")
      let st := pushChunk st lineBreak
      match streamFileField st file none with
      | (st, none) => streamListItems name subBoundary st idx rest
      | (st, some e) => (st, some e)
    else
      let ff := jsOrStr (getFilename file) ""
      let fname := if ff.data.isEmpty then name ++ "-" ++ toString idx else ff
      let idx := if ff.data.isEmpty then idx + 1 else idx
      let st := pushChunk st
        ("Content-Disposition: file; filename=\"" ++ encodeURIComponent fname ++ "\"")
      let st := pushChunk st lineBreak
      match streamFileField st (sourceOrUndef file) (getContentType file) with
      | (st, none) => streamListItems name subBoundary st idx rest
      | (st, some e) => (st, some e)

/-- One iteration of FormDataStream.readNext framing a single field (lines
53-114). `subSupply k` is the k-th nested boundary `generateBoundary`
would return (boundary generation is the only randomness); the returned
`Nat` is the updated count of nested boundaries drawn. -/
def frameField (boundary : String) (subSupply : Nat → String)
    (st : PState) (k : Nat) (name : String) (content : Content) :
    PState × Nat × Option Err :=
  let st := pushChunk st ("--" ++ boundary)
  let st := pushChunk st lineBreak
  let st := pushChunk st
    ("Content-Disposition: form-data; name=\"" ++ encodeURIComponent name ++ "\"")
  if isReadable content || sourceTruthy content then
    let source := resolveSource content
    let filename := fieldFilename name content
    let st := pushChunk st ("; filename=\"" ++ encodeURIComponent filename ++ "\"")
    let st := pushChunk st lineBreak
    match streamFileField st source (getContentType content) with
    | (st, e) => (st, k, e)
  else
    let st := pushChunk st lineBreak
    if isArray content then
      let subBoundary := subSupply k
      let st := pushChunk st ("Content-Type: multipart/mixed; boundary=" ++ subBoundary)
      let st := pushChunk st (lineBreak ++ lineBreak)
      match streamListItems name subBoundary st 0 (getItems content) with
      | (st, none) =>
        let st := pushChunk st ("--" ++ subBoundary ++ "--")
        let st := pushChunk st lineBreak
        (st, k + 1, none)
      | (st, some e) => (st, k + 1, some e)
    else
      match streamFileField st content none with
      | (st, e) => (st, k, e)

/-- The full production run: readNext over every field of the iterator in
order (the chaining at lines 116-120), then the done-branch (lines 47-51),
which pushes the closing `--boundary--` directly, WITHOUT flushing the
chunk accumulator, and ends the stream. On an error the run stops with
the fields so far. -/
def frameFields (boundary : String) (subSupply : Nat → String) :
    PState → Nat → List (String × Content) → PState × Option Err
  | st, _, [] => (pushOut st ("--" ++ boundary ++ "--"), none)
  | st, k, (name, content) :: rest =>
    match frameField boundary subSupply st k name content with
    | (st, k, none) => frameFields boundary subSupply st k rest
    | (st, _, some e) => (st, some e)

/-- Output of a whole multipart production for the given boundary, nested
boundary supply, and field list. -/
def multipartRun (boundary : String) (subSupply : Nat → String)
    (fields : List (String × Content)) : PState × Option Err :=
  frameFields boundary subSupply initState 0 fields

/-- The chunks the multipart stream pushes, in order. -/
def multipartChunks (boundary : String) (subSupply : Nat → String)
    (fields : List (String × Content)) : List String :=
  (multipartRun boundary subSupply fields).1.pushed

/-- The byte sequence of the multipart body: concatenation of the pushed
chunks. -/
def multipartBody (boundary : String) (subSupply : Nat → String)
    (fields : List (String × Content)) : String :=
  String.join (multipartChunks boundary subSupply fields)

/-- The body serializeFormData returns: a plain string for the
query-string encoding, or the (materialized) multipart stream. -/
inductive SerializedBody where
  | text (s : String)
  | stream (chunks : List String) (err : Option Err)
deriving DecidableEq

structure SerializeResult where
  body : SerializedBody
  contentType : String
deriving DecidableEq

/-- serializeFormData (lines 243-275). The `type` switch sends
"multipart/form-data" to the streaming encoder; every other value
(including `undefined` and unknown types, which only add a console
warning) falls through to the query-string branch, which percent-encodes
each key and value (with JS string coercion) and joins the pairs with
`&` in iteration order. The boundary and the supply of nested boundaries
stand for the random generateBoundary outputs. -/
def serializeFormData (fields : List (String × Content)) (type : Option String)
    (boundary : String) (subSupply : Nat → String) : SerializeResult :=
  if type = some "multipart/form-data" then
    let r := multipartRun boundary subSupply fields
    { body := .stream r.1.pushed r.2
      contentType := "multipart/form-data; boundary=" ++ boundary ++ "; charset=UTF-8" }
  else
    { body := .text (String.intercalate "&"
        (fields.map fun p =>
          encodeURIComponent p.1 ++ "=" ++ encodeURIComponent (jsToString p.2)))
      contentType := "application/x-www-form-urlencoded; charset=UTF-8" }

/-! Pull scheduler and cancellation, as a transition system over the
stream's control flags: `reading` is `kReading` (a production cycle is in
flight), `readNextFlag` is `kReadNext` (a pull was deferred; the source
never resets it to false), `waiter` says an `onceResume` promise is
pending, `destroyed` that `_destroy` ran, `waiterRejected` that a pending
resume promise was rejected. `cycles` counts production-cycle starts,
i.e. calls of `readNext` that begin framing work. -/

structure FDState where
  reading : Bool
  readNextFlag : Bool
  waiter : Bool
  destroyed : Bool
  waiterRejected : Bool
  cycles : Nat
deriving DecidableEq

/-- Events driving the stream: `pull` is a downstream `_read` call,
`cycleEnd` the tail of `readNext` finishing one field (lines 116-120),
`suspend` a Drainer starting an `onceResume` wait after a full-buffer
push (lines 199-202), `destroy` a `_destroy` call. -/
inductive FDEvent where
  | pull
  | cycleEnd
  | suspend
  | destroy
deriving DecidableEq

/-- One transition. `pull` follows `_read` (lines 147-162): while a cycle
is in flight it resolves a pending resume waiter if there is one and
otherwise sets the deferred flag; while idle it starts a cycle.
`cycleEnd` follows lines 116-120: with the deferred flag set, `readNext`
recurses immediately (the flag is NOT cleared); otherwise `kReading`
drops to false. `destroy` follows `_destroy` (lines 140-145): a pending
waiter is rejected, which makes the suspended `await` throw and unwind
the in-flight cycle (hence `reading` drops). Events arriving after
destruction do nothing: the rejected cycle never reaches its chaining
tail, and (Modelled from the spec: this part is Node's Readable
machinery, not code under src/) no pulls are delivered to a destroyed
stream. -/
def step (s : FDState) : FDEvent → FDState
  | .pull =>
    if s.destroyed then s
    else if s.reading then
      if s.waiter then { s with waiter := false }
      else { s with readNextFlag := true }
    else { s with reading := true, cycles := s.cycles + 1 }
  | .cycleEnd =>
    if s.destroyed then s
    else if s.reading then
      if s.readNextFlag then { s with cycles := s.cycles + 1 }
      else { s with reading := false }
    else s
  | .suspend =>
    if s.destroyed then s
    else if s.reading then { s with waiter := true } else s
  | .destroy =>
    { s with destroyed := true, waiter := false,
             waiterRejected := s.waiterRejected || s.waiter, reading := false }

/-- The freshly constructed stream: idle, no deferred pull, no waiter. -/
def fdInit : FDState := ⟨false, false, false, false, false, 0⟩

/-- Outcome of draining one streamed source: the Drainer either consumed
the whole source, or is suspended forever on a backpressure wait that no
resume will ever fulfil. Both record how many chunks were pulled from the
upstream source. -/
inductive DrainResult where
  | completed (pulled : Nat)
  | suspendedForever (pulled : Nat)
deriving DecidableEq

/-- The drain loop of streamFileField (lines 199-203):
`for await (chunk of readStream(file)) if (push(chunk) === false) await onceResume()`.
`accept i` is what the i-th `this.push` returns (false = downstream buffer
full); `resumes` is how many resume signals the consumer will ever send.
The counter `i` is both the index of the next push and the number of
chunks already pulled from the upstream source: entering the loop body
for a chunk means that chunk was pulled. -/
def drainChunks (accept : Nat → Bool) : List String → Nat → Nat → DrainResult
  | [], i, _ => .completed i
  | _ :: rest, i, resumes =>
    if accept i then drainChunks accept rest (i + 1) resumes
    else
      match resumes with
      | 0 => .suspendedForever (i + 1)
      | r + 1 => drainChunks accept rest (i + 1) r

/-! Helper lemmas. -/

theorem foldl_pushOut (st : PState) (chunks : List String) :
    List.foldl pushOut st chunks = ⟨st.pushed ++ chunks, st.buffer⟩ := by
  induction chunks generalizing st with
  | nil => cases st; simp
  | cons c rest ih => simp [List.foldl, pushOut, ih]

theorem step_destroyed_frozen (s : FDState) (evs : List FDEvent)
    (hd : s.destroyed = true) :
    (List.foldl step s evs).cycles = s.cycles ∧ (List.foldl step s evs).destroyed = true := by
  induction evs generalizing s with
  | nil => exact ⟨rfl, hd⟩
  | cons e rest ih =>
    have h1 : (step s e).cycles = s.cycles ∧ (step s e).destroyed = true := by
      cases e <;> simp [step, hd]
    have h2 := ih (step s e) h1.2
    exact ⟨h2.1.trans h1.1, h2.2⟩

theorem drainChunks_suspends (accept : Nat → Bool) :
    ∀ (chunks : List String) (i k : Nat), i ≤ k → k < i + chunks.length →
    (∀ j, i ≤ j → j < k → accept j = true) → accept k = false →
    drainChunks accept chunks i 0 = .suspendedForever (k + 1) := by
  intro chunks
  induction chunks with
  | nil =>
    intro i k h1 h2 _ _
    simp only [List.length_nil, Nat.add_zero] at h2
    exact absurd h2 (Nat.not_lt.mpr h1)
  | cons c rest ih =>
    intro i k h1 h2 hpre hk
    by_cases hik : i = k
    · subst hik
      simp [drainChunks, hk]
    · have hlt : i < k := lt_of_le_of_ne h1 hik
      have hacc : accept i = true := hpre i le_rfl hlt
      simp only [drainChunks, hacc, if_true]
      exact ih (i + 1) k hlt (by simp at h2 ⊢; omega)
        (fun j hj hjk => hpre j (by omega) hjk) hk

/-! Claim theorems. -/

/-- The single-field input of the worked multipart example:
`{file: {source: <3-byte buffer "abc">, filename: "f.txt", contentType: "text/plain"}}`. -/
def c1Fields : List (String × Content) :=
  [("file", .record (some (.buf "abc")) (some "f.txt") (some "text/plain") none)]

/-- C1: for the mapping `{file: {source: <buffer "abc">, filename: "f.txt",
contentType: "text/plain"}}` with multipart encoding, serializeFormData
returns the header `multipart/form-data; boundary=<token>; charset=UTF-8`
and a stream whose concatenated bytes are exactly one field frame
(`--<boundary>`, the Content-Disposition line with name and filename, the
Content-Type line, a blank line, `abc`, a line break) followed by the
closing delimiter `--<boundary>--`, with the same boundary token in the
header and the body. -/
theorem c1_multipart_single_file_field (b : String) (supply : Nat → String) :
    (serializeFormData c1Fields (some "multipart/form-data") b supply).contentType
      = "multipart/form-data; boundary=" ++ b ++ "; charset=UTF-8"
  ∧ (serializeFormData c1Fields (some "multipart/form-data") b supply).body
      = .stream (multipartChunks b supply c1Fields) none
  ∧ String.join (multipartChunks b supply c1Fields)
      = "--" ++ b ++ "\r\nContent-Disposition: form-data; name=\"file\"; filename=\"f.txt\"\r\nContent-Type: text/plain\r\n\r\nabc\r\n--" ++ b ++ "--" := by
  refine ⟨rfl, rfl, ?_⟩
  have h1 : multipartChunks b supply c1Fields
    = [((((((("" ++ ("--" ++ b)) ++ "\r\n")
          ++ "Content-Disposition: form-data; name=\"file\"")
          ++ "; filename=\"f.txt\"")
          ++ "\r\n")
          ++ "Content-Type: text/plain")
          ++ "\r\n\r\n"),
       "abc", "\r\n", "--" ++ (b ++ "--")] := rfl
  rw [h1]
  have h2 : ("\r\nContent-Disposition: form-data; name=\"file\"; filename=\"f.txt\"\r\nContent-Type: text/plain\r\n\r\nabc\r\n--" : String)
      = "\r\n" ++ ("Content-Disposition: form-data; name=\"file\"" ++ ("; filename=\"f.txt\""
        ++ ("\r\n" ++ ("Content-Type: text/plain" ++ ("\r\n\r\n" ++ ("abc" ++ ("\r\n" ++ "--"))))))) := rfl
  rw [h2]
  simp only [String.join, List.foldl, String.append_assoc, String.empty_append,
    String.append_empty]

/-- C2: for field mappings with only scalar (text) values, the
query-string encoding returns exactly the ampersand-joined concatenation
of percent-encoded `key=value` pairs in iteration order, with the
urlencoded Content-Type header; in particular `{a: "1"}` gives body
`a=1`. -/
theorem c2_urlencoded_scalar_fields (fields : List (String × String))
    (b : String) (supply : Nat → String) :
    (serializeFormData (fields.map fun p => (p.1, Content.str p.2)) none b supply).body
      = .text (String.intercalate "&"
          (fields.map fun p => encodeURIComponent p.1 ++ "=" ++ encodeURIComponent p.2))
  ∧ (serializeFormData (fields.map fun p => (p.1, Content.str p.2)) none b supply).contentType
      = "application/x-www-form-urlencoded; charset=UTF-8"
  ∧ (serializeFormData [("a", Content.str "1")] none b supply).body = .text "a=1" := by
  refine ⟨?_, rfl, rfl⟩
  simp only [serializeFormData, List.map_map]
  rfl

/-- C3: evaluation of the query-string branch on the array-valued field
`{a: ["1","4"]}`. The source percent-encodes the whole value through the
implicit JS string coercion (comma join), producing the single unit
`a=1%2C4`, which differs from the conventional flattening `a=1&a=4` that
the claim (and the repository test against querystring.stringify)
expects. -/
theorem c3_urlencoded_array_single_unit :
    (serializeFormData [("a", Content.arr [.str "1", .str "4"])] none "" (fun _ => "")).body
      = .text "a=1%2C4"
  ∧ (("a=1%2C4" : String) == "a=1&a=4") = false :=
  ⟨rfl, by decide⟩

/-- C4 counterexample: a NamedSource whose source is the 3-byte text
"abc", with a filename and NO contentType. The claim says the frame
carries `Content-Type: application/octet-stream`, but the produced body
carries `Content-Type: text/plain` and contains no octet-stream header at
all. -/
theorem c4_counterexample_buffer_source_text_plain :
    strContains (multipartBody "B" (fun _ => "S")
        [("file", .record (some (.str "abc")) (some "f.txt") none none)])
        "Content-Type: application/octet-stream" = false
  ∧ strContains (multipartBody "B" (fun _ => "S")
        [("file", .record (some (.str "abc")) (some "f.txt") none none)])
        "Content-Type: text/plain" = true := by
  exact ⟨by decide, by decide⟩

/-- C4 (amended): for every field whose value is a NamedSource with no
contentType — a record carrying a stream source, a Readable passed
directly, a record carrying nonempty text, or a record carrying a
nonempty byte buffer, each with arbitrary filename and path properties —
the frame carries `Content-Type: application/octet-stream` for the two
stream shapes and `Content-Type: text/plain` for the buffer/text shapes
(the length-based branch of streamFileField uses the plain-text
default). Stated as the exact chunk sequence of a single-field
production, with the emitted Content-Disposition filename given by
`fieldFilename` (line 62 of the source). -/
theorem c4_amended_default_content_types (b : String) (supply : Nat → String)
    (name : String) (chunks : List String) (pa rpa fn : Option String)
    (c : Char) (cs : List Char) :
    multipartChunks b supply
      [(name, .record (some (.stream chunks pa)) fn none rpa)]
    = ("--" ++ b ++ "\r\nContent-Disposition: form-data; name=\"" ++ encodeURIComponent name
        ++ "\"; filename=\""
        ++ encodeURIComponent (fieldFilename name (.record (some (.stream chunks pa)) fn none rpa))
        ++ "\"\r\nContent-Type: application/octet-stream\r\n\r\n")
      :: (chunks ++ ["\r\n", "--" ++ b ++ "--"])
  ∧ multipartChunks b supply [(name, .stream chunks pa)]
    = ("--" ++ b ++ "\r\nContent-Disposition: form-data; name=\"" ++ encodeURIComponent name
        ++ "\"; filename=\""
        ++ encodeURIComponent (fieldFilename name (.stream chunks pa))
        ++ "\"\r\nContent-Type: application/octet-stream\r\n\r\n")
      :: (chunks ++ ["\r\n", "--" ++ b ++ "--"])
  ∧ multipartChunks b supply
      [(name, .record (some (.str (String.mk (c :: cs)))) fn none rpa)]
    = [("--" ++ b ++ "\r\nContent-Disposition: form-data; name=\"" ++ encodeURIComponent name
        ++ "\"; filename=\""
        ++ encodeURIComponent (fieldFilename name (.record (some (.str (String.mk (c :: cs)))) fn none rpa))
        ++ "\"\r\nContent-Type: text/plain\r\n\r\n"),
       String.mk (c :: cs), "\r\n", "--" ++ b ++ "--"]
  ∧ multipartChunks b supply
      [(name, .record (some (.buf (String.mk (c :: cs)))) fn none rpa)]
    = [("--" ++ b ++ "\r\nContent-Disposition: form-data; name=\"" ++ encodeURIComponent name
        ++ "\"; filename=\""
        ++ encodeURIComponent (fieldFilename name (.record (some (.buf (String.mk (c :: cs)))) fn none rpa))
        ++ "\"\r\nContent-Type: text/plain\r\n\r\n"),
       String.mk (c :: cs), "\r\n", "--" ++ b ++ "--"] := by
  have hs1 : ("\r\nContent-Disposition: form-data; name=\"" : String)
      = "\r\n" ++ "Content-Disposition: form-data; name=\"" := rfl
  have hs2 : ("\"; filename=\"" : String) = "\"" ++ "; filename=\"" := rfl
  have hs3 : ("\"\r\nContent-Type: application/octet-stream\r\n\r\n" : String)
      = "\"" ++ ("\r\n" ++ ("Content-Type: application/octet-stream" ++ "\r\n\r\n")) := rfl
  have hs4 : ("\"\r\nContent-Type: text/plain\r\n\r\n" : String)
      = "\"" ++ ("\r\n" ++ ("Content-Type: text/plain" ++ "\r\n\r\n")) := rfl
  refine ⟨?_, ?_, ?_, ?_⟩
  · have h1 : multipartChunks b supply
        [(name, .record (some (.stream chunks pa)) fn none rpa)]
      = ((List.foldl pushOut
          ⟨[((((((("" ++ ("--" ++ b)) ++ "\r\n")
              ++ ("Content-Disposition: form-data; name=\"" ++ (encodeURIComponent name ++ "\"")))
              ++ ("; filename=\""
                  ++ (encodeURIComponent (fieldFilename name (.record (some (.stream chunks pa)) fn none rpa)) ++ "\"")))
              ++ "\r\n")
              ++ "Content-Type: application/octet-stream")
              ++ "\r\n\r\n")], ""⟩
          chunks).pushed ++ ["\r\n"]) ++ ["--" ++ (b ++ "--")] := rfl
    rw [h1, foldl_pushOut]
    simp only [List.append_assoc, List.cons_append, List.nil_append, List.singleton_append]
    congr 1
    simp only [hs1, hs2, hs3, String.append_assoc, String.empty_append]
  · have h1 : multipartChunks b supply [(name, .stream chunks pa)]
      = ((List.foldl pushOut
          ⟨[((((((("" ++ ("--" ++ b)) ++ "\r\n")
              ++ ("Content-Disposition: form-data; name=\"" ++ (encodeURIComponent name ++ "\"")))
              ++ ("; filename=\""
                  ++ (encodeURIComponent (fieldFilename name (.stream chunks pa)) ++ "\"")))
              ++ "\r\n")
              ++ "Content-Type: application/octet-stream")
              ++ "\r\n\r\n")], ""⟩
          chunks).pushed ++ ["\r\n"]) ++ ["--" ++ (b ++ "--")] := rfl
    rw [h1, foldl_pushOut]
    simp only [List.append_assoc, List.cons_append, List.nil_append, List.singleton_append]
    congr 1
    simp only [hs1, hs2, hs3, String.append_assoc, String.empty_append]
  · have h1 : multipartChunks b supply
        [(name, .record (some (.str (String.mk (c :: cs)))) fn none rpa)]
      = [((((((("" ++ ("--" ++ b)) ++ "\r\n")
            ++ ("Content-Disposition: form-data; name=\"" ++ (encodeURIComponent name ++ "\"")))
            ++ ("; filename=\""
                ++ (encodeURIComponent (fieldFilename name (.record (some (.str (String.mk (c :: cs)))) fn none rpa)) ++ "\"")))
            ++ "\r\n")
            ++ "Content-Type: text/plain")
            ++ "\r\n\r\n"),
         String.mk (c :: cs), "\r\n", "--" ++ (b ++ "--")] := rfl
    rw [h1]
    congr 1
    simp only [hs1, hs2, hs4, String.append_assoc, String.empty_append]
  · have h1 : multipartChunks b supply
        [(name, .record (some (.buf (String.mk (c :: cs)))) fn none rpa)]
      = [((((((("" ++ ("--" ++ b)) ++ "\r\n")
            ++ ("Content-Disposition: form-data; name=\"" ++ (encodeURIComponent name ++ "\"")))
            ++ ("; filename=\""
                ++ (encodeURIComponent (fieldFilename name (.record (some (.buf (String.mk (c :: cs)))) fn none rpa)) ++ "\"")))
            ++ "\r\n")
            ++ "Content-Type: text/plain")
            ++ "\r\n\r\n"),
         String.mk (c :: cs), "\r\n", "--" ++ (b ++ "--")] := rfl
    rw [h1]
    congr 1
    simp only [hs1, hs2, hs4, String.append_assoc, String.empty_append]

/-- C5: evaluation of a production whose last (only) field is a
SourceList with one sub-file of text "abc", top boundary "B", nested
boundary "S". The nested frames are produced as the claim describes, but
the nested closing delimiter `--S--` with its line break is only written
into the chunk accumulator, which the done-branch never flushes before
pushing the final `--B--`: the body therefore does not contain `--S--`
anywhere, and `--S--CRLF` is left stranded in the accumulator. -/
theorem c5_last_array_field_missing_nested_terminator :
    multipartBody "B" (fun _ => "S")
        [("files", .arr [.record (some (.str "abc")) none none none])]
      = "--B\r\nContent-Disposition: form-data; name=\"files\"\r\nContent-Type: multipart/mixed; boundary=S\r\n\r\n--S\r\nContent-Disposition: file; filename=\"files-0\"\r\nContent-Type: text/plain\r\n\r\nabc\r\n--B--"
  ∧ strContains (multipartBody "B" (fun _ => "S")
        [("files", .arr [.record (some (.str "abc")) none none none])]) "--S--" = false
  ∧ (multipartRun "B" (fun _ => "S")
        [("files", .arr [.record (some (.str "abc")) none none none])]).1.buffer
      = "--S--\r\n"
  ∧ (multipartRun "B" (fun _ => "S")
        [("files", .arr [.record (some (.str "abc")) none none none])]).2 = none := by
  exact ⟨by decide, by decide, by decide, rfl⟩

/-- C6 counterexample: the event trace pull, pull, cycleEnd, cycleEnd.
The second pull is deferred during cycle 1; the first cycleEnd starts
cycle 2; NO pull arrives during cycle 2 (after three events the stream is
in cycle 2 with 2 starts), yet the second cycleEnd starts cycle 3 and
leaves the producer reading instead of moving to Idle, because the
deferred-pull flag is never cleared — contradicting the claim that a new
cycle starts if and only if a pull was deferred during the completed
cycle. -/
theorem c6_counterexample_sticky_deferred_flag :
    (List.foldl step fdInit [FDEvent.pull, FDEvent.pull, FDEvent.cycleEnd, FDEvent.cycleEnd]).reading
      = true
  ∧ (List.foldl step fdInit [FDEvent.pull, FDEvent.pull, FDEvent.cycleEnd, FDEvent.cycleEnd]).cycles
      = 3
  ∧ (List.foldl step fdInit [FDEvent.pull, FDEvent.pull, FDEvent.cycleEnd]).cycles = 2
  ∧ (List.foldl step fdInit [FDEvent.pull, FDEvent.pull, FDEvent.cycleEnd]).readNextFlag = true := by
  decide

/-- C6 (amended): a pull during an in-flight cycle never starts a second
concurrent production (the cycle-start count is unchanged); it records a
deferred request when no backpressure waiter is pending, and otherwise
resolves the waiter (leaving the deferred flag as it was). On cycle
completion the scheduler immediately starts the next cycle if the
deferred flag is set and moves to Idle if it is not — but the flag, once
set, is never cleared by any event, so after any deferred pull every
later completion starts another cycle. -/
theorem c6_amended_scheduler_transitions (f w r : Bool) (n : Nat) (e : FDEvent) :
    (step ⟨true, f, w, false, false, n⟩ .pull).cycles = n
  ∧ (step ⟨true, f, false, false, false, n⟩ .pull).readNextFlag = true
  ∧ (step ⟨true, f, true, false, false, n⟩ .pull) = ⟨true, f, false, false, false, n⟩
  ∧ (step ⟨true, true, w, false, false, n⟩ .cycleEnd) = ⟨true, true, w, false, false, n + 1⟩
  ∧ (step ⟨true, false, w, false, false, n⟩ .cycleEnd) = ⟨false, false, w, false, false, n⟩
  ∧ (step ⟨r, true, w, false, false, n⟩ e).readNextFlag = true := by
  cases e <;> cases f <;> cases w <;> cases r <;> simp [step]

/-- C7: if the k-th push is the first to report the downstream buffer
full and the consumer never signals ready (no resumes), the Drainer ends
suspended having pulled exactly the chunks up to index k from the
upstream source — it never pulls another chunk after the full-buffer
signal. -/
theorem c7_no_overread_after_full_signal (chunks : List String) (accept : Nat → Bool)
    (k : Nat) (hk : k < chunks.length) (hpre : ∀ j, j < k → accept j = true)
    (hfull : accept k = false) :
    drainChunks accept chunks 0 0 = .suspendedForever (k + 1) :=
  drainChunks_suspends accept chunks 0 k (Nat.zero_le k) (by omega)
    (fun j _ hj => hpre j hj) hfull

/-- Witness for C7 at a concrete input: two chunks, the very first push
reports full, no resumes: exactly one chunk is pulled and the second is
never requested. -/
theorem c7_no_overread_after_full_signal_witness :
    0 < (["a", "b"] : List String).length
  ∧ drainChunks (fun j => decide (j ≠ 0)) ["a", "b"] 0 0 = .suspendedForever 1 :=
  ⟨by decide,
   c7_no_overread_after_full_signal ["a", "b"] (fun j => decide (j ≠ 0)) 0 (by decide)
     (fun j hj => absurd hj (Nat.not_lt_zero j)) (by decide)⟩

/-- C8: destroying the stream while a Drainer is suspended on a
backpressure wait (a waiter is pending in a producing state) rejects that
pending wait, and afterwards no event sequence ever starts another
production cycle: the cycle-start count stays at its value at destruction
and the stream stays destroyed. -/
theorem c8_destroy_rejects_wait_and_halts_production (f : Bool) (n : Nat)
    (evs : List FDEvent) :
    (step ⟨true, f, true, false, false, n⟩ .destroy).waiterRejected = true
  ∧ (step ⟨true, f, true, false, false, n⟩ .destroy).waiter = false
  ∧ (step ⟨true, f, true, false, false, n⟩ .destroy).destroyed = true
  ∧ (List.foldl step (step ⟨true, f, true, false, false, n⟩ .destroy) evs).cycles = n
  ∧ (List.foldl step (step ⟨true, f, true, false, false, n⟩ .destroy) evs).destroyed = true := by
  refine ⟨rfl, rfl, rfl, ?_, ?_⟩
  · exact (step_destroyed_frozen _ evs rfl).1
  · exact (step_destroyed_frozen _ evs rfl).2

/-- C9: a field value that is truthy but neither buffer/text-like (no
truthy length) nor a Readable nor an array nor a source-carrying object
(`Content.other`, e.g. a number) makes the whole multipart production
fail while that field is framed: the run reports an error, the output is
completely independent of whatever fields follow the invalid one (no
remaining fields are emitted), and with the invalid field first the error
is precisely the non-Readable rejection. -/
theorem c9_invalid_source_aborts_production (b : String) (supply : Nat → String)
    (st : PState) (k : Nat) (pre post post' : List (String × Content)) (name : String) :
    (frameFields b supply st k (pre ++ (name, Content.other) :: post)).2.isSome = true
  ∧ frameFields b supply st k (pre ++ (name, Content.other) :: post)
      = frameFields b supply st k (pre ++ (name, Content.other) :: post')
  ∧ (frameFields b supply st k ((name, Content.other) :: post)).2 = some Err.nonReadable := by
  have key : ∀ (st : PState) (k : Nat),
      (frameFields b supply st k (pre ++ (name, Content.other) :: post)).2.isSome = true
    ∧ frameFields b supply st k (pre ++ (name, Content.other) :: post)
        = frameFields b supply st k (pre ++ (name, Content.other) :: post') := by
    induction pre with
    | nil => exact fun st k => ⟨rfl, rfl⟩
    | cons hd tl ih =>
      intro st k
      obtain ⟨n, c⟩ := hd
      simp only [List.cons_append, frameFields]
      rcases hff : frameField b supply st k n c with ⟨st1, k1, e⟩
      cases e with
      | none => exact ih st1 k1
      | some err => exact ⟨rfl, rfl⟩
  exact ⟨(key st k).1, (key st k).2, rfl⟩

/-- C10: a field whose payload value is the empty string or a zero-length
buffer makes multipart production raise an error while that field is
framed instead of emitting a frame with an empty payload: the empty
string is falsy and fails the assert, and the empty buffer has falsy
length, is not a Readable, and hits the non-Readable rejection. -/
theorem c10_empty_payload_raises (b : String) (supply : Nat → String) (st : PState)
    (k : Nat) (name : String) (post : List (String × Content)) :
    (frameFields b supply st k ((name, Content.str "") :: post)).2 = some Err.assertionFailed
  ∧ (frameFields b supply st k ((name, Content.buf "") :: post)).2 = some Err.nonReadable :=
  ⟨rfl, rfl⟩

end FormData
